import Mathlib

/-
Verification of the object-format protocol (src/format.c) of the MPS memory
manager: the format descriptor entity, its create/destroy lifecycle, its
structural validator, its arena accessor, and its describer.

The format module's collaborators (the arena's allocation and free
primitives, the intrusive ring, the signature constants, the alignment
predicate and the diagnostic writer, all declared in mpm.h and implemented
outside src/) are modelled from the specification, as marked on each
definition.
-/

namespace MPS

/-- Result codes returned by fallible operations (mpm.h, modelled from the
spec: construction reports resource exhaustion synchronously; the describer
propagates the sink's write failure). -/
inductive Res where
  | ok
  | memory
  | io
  deriving DecidableEq, Repr

/-- Modelled from the spec: signature sentinel for a live format descriptor
(the validity signature checked by `CHECKS(Format, format)`). The exact
numeric value is not in src/; only its distinctness from `SigInvalid`
matters. -/
def FormatSig : Nat := 0x519F63A2

/-- Modelled from the spec: the signature written by destruction so that any
further use of the descriptor is detectable (`format->sig = SigInvalid`). -/
def SigInvalid : Nat := 0x51915BAD

/-- Modelled from the spec: signature sentinel for a live arena, checked by
`CHECKU(Arena, ...)`. -/
def ArenaSig : Nat := 0x519A7E9A

/-- The two format varieties (`FormatVarietyA`, `FormatVarietyB`): variety A
admits the default class-extraction behaviour, variety B requires a
client-supplied class callback. -/
inductive FormatVariety where
  | A
  | B
  deriving DecidableEq, Repr

/-- Modelled from the spec: the state of one intrusive ring node (the ring
collaborator is not in src/). `single` is a self-linked node (after
initialisation or after removal), `member` a node linked into a ring, and
`finished` a node whose links have been torn down; the node self-consistency
check accepts exactly the first two. -/
inductive RingNodeState where
  | single
  | member
  | finished
  deriving DecidableEq, Repr

/-- Modelled from the spec: the ring node self-consistency check
(`RingCheck`): a node whose forward/back links agree is either self-linked
or properly linked into a ring. -/
def RingCheck (node : RingNodeState) : Bool :=
  match node with
  | RingNodeState.single => true
  | RingNodeState.member => true
  | RingNodeState.finished => false

/-- Modelled from the spec: the alignment-validity predicate (`AlignCheck`
in mpm.h): alignment is a positive power of two. -/
def AlignCheck (alignment : Nat) : Bool :=
  decide (0 < alignment) && decide (Nat.land alignment (alignment - 1) = 0)

/-- Modelled from the spec: `FUNCHECK` accepts exactly the non-null
(plausibly executable) callback references; `none` is the null pointer. -/
def FUNCHECK {α : Type} (f : Option α) : Bool :=
  f.isSome

/-- The semantic type of the class-extraction callback: given client memory
(a map from addresses to the pointer-sized word stored there) and an object
address, return the class identifier, or `none` when the callback's own
assertion fires. -/
def FormatClassMethod : Type := (Nat → Nat) → Nat → Option Nat

/-- The arena surface the format module consumes, modelled from the spec:
an address (`addr`) identifying the arena, a validity signature, the
arena's own serial (printed by the describer), the serial-issuing counter
`formatSerial`, the format ring (as the sequence of member descriptor
addresses), the allocation-availability oracle `allocOk`, the next free
address `nextAddr`, and the set of live allocated block addresses. -/
structure ArenaStruct where
  addr : Nat
  sig : Nat
  serial : Nat
  formatSerial : Nat
  formatRing : List Nat
  allocOk : Bool
  nextAddr : Nat
  blocks : List Nat
  deriving Repr

/-- One format descriptor (`FormatStruct` in mpmst.h), with the fields
format.c reads and writes: its own storage address, validity signature,
owning-arena reference (the arena's address), ring node, alignment, variety,
the seven callbacks, and the serial number. The six callbacks whose
semantics this module never invokes are abstract code addresses
(`none` = null); the class callback carries its semantics for the
default-class behaviour. -/
structure FormatStruct where
  addr : Nat
  sig : Nat
  arena : Nat
  arenaRing : RingNodeState
  alignment : Nat
  variety : FormatVariety
  scan : Option Nat
  skip : Option Nat
  move : Option Nat
  isMoved : Option Nat
  copy : Option Nat
  pad : Option Nat
  «class» : Option FormatClassMethod
  serial : Nat

/-- Modelled from the spec: size of a `FormatStruct` in bytes
(`sizeof(FormatStruct)`); the exact value is immaterial. -/
def FormatStructSize : Nat := 64

/-- Modelled from the spec: the arena's allocation primitive. On success it
returns `Res.ok` and a fresh block address and records the block; on
exhaustion (`allocOk = false`) it fails with `Res.memory` and leaves the
arena unchanged. -/
def ArenaAlloc (arena : ArenaStruct) (size : Nat) : Res × Nat × ArenaStruct :=
  if arena.allocOk then
    (Res.ok, arena.nextAddr,
     { arena with nextAddr := arena.nextAddr + size,
                  blocks := arena.blocks ++ [arena.nextAddr] })
  else
    (Res.memory, 0, arena)

/-- Modelled from the spec: the arena's free primitive; returns the block's
storage to the arena. The `size` argument mirrors the C call and is not
otherwise used by the model. -/
def ArenaFree (arena : ArenaStruct) (p : Nat) (size : Nat) : ArenaStruct :=
  let _ := size
  { arena with blocks := arena.blocks.erase p }

/-- Modelled from the spec: `CHECKU(Arena, arena)`, the arena's shallow
structural check (signature match). -/
def ArenaCheckU (arena : ArenaStruct) : Bool :=
  arena.sig == ArenaSig

/-- FormatCheck (format.c lines 16-35): the structural validator. Each
`CHECKS`/`CHECKU`/`CHECKL` macro short-circuits, failing the whole check as
soon as its condition is false; the `arena` argument is the struct obtained
by dereferencing `format->arena`. -/
def FormatCheck (arena : ArenaStruct) (format : FormatStruct) : Bool :=
  if format.sig != FormatSig then false
  else if !ArenaCheckU arena then false
  else if !decide (format.serial < arena.formatSerial) then false
  else if !(format.variety == FormatVariety.A || format.variety == FormatVariety.B) then false
  else if !RingCheck format.arenaRing then false
  else if !AlignCheck format.alignment then false
  else if !FUNCHECK format.scan then false
  else if !FUNCHECK format.skip then false
  else if !FUNCHECK format.move then false
  else if !FUNCHECK format.isMoved then false
  else if !FUNCHECK format.copy then false
  else if !FUNCHECK format.pad then false
  else if !FUNCHECK format.«class» then false
  else true

/-- The effectful reading of `FormatCheck`: the source body of the validator
contains no assignment (it only reads fields), so its state-transformer
embedding returns the arena and descriptor unchanged alongside the result. -/
def FormatCheckOp (arena : ArenaStruct) (format : FormatStruct) :
    Bool × ArenaStruct × FormatStruct :=
  (FormatCheck arena format, arena, format)

/-- FormatDefaultClass (format.c lines 37-42): the default class-extraction
callback installed when the client omits `class` under variety A. It asserts
the object is non-null and returns the pointer-sized value stored at offset
zero of the object (`((Addr *)object)[0]`, read from the client memory
`mem`); `none` models the assertion firing. -/
def FormatDefaultClass : FormatClassMethod :=
  fun mem object => if object != 0 then some (mem object) else none

/-- The outcome of `FormatCreate`: a recoverable failure result with the
arena as the call left it, an assertion-level defect (`AVER`/`AVERT`
violated), or success with the updated arena and the new descriptor. -/
inductive CResult where
  | fail (res : Res) (arena : ArenaStruct)
  | defect
  | ok (arena : ArenaStruct) (format : FormatStruct)

/-- Lines 83-92 of format.c, after the class callback has been resolved:
stamp the signature, assign `serial := arena->formatSerial`, increment the
counter, run `AVERT(Format, format)`, and append the new descriptor to the
arena's format ring. -/
def formatFinish (arena1 : ArenaStruct) (p : Nat) (alignment : Nat)
    (variety : FormatVariety) (scan skip move isMoved copy pad : Option Nat)
    (cls : Option FormatClassMethod) : CResult :=
  let format : FormatStruct :=
    { addr := p, sig := FormatSig, arena := arena1.addr,
      arenaRing := RingNodeState.single, alignment := alignment,
      variety := variety, scan := scan, skip := skip, move := move,
      isMoved := isMoved, copy := copy, pad := pad, «class» := cls,
      serial := arena1.formatSerial }
  let arena2 := { arena1 with formatSerial := arena1.formatSerial + 1 }
  if FormatCheck arena2 format then
    CResult.ok { arena2 with formatRing := arena2.formatRing ++ [format.addr] } format
  else
    CResult.defect

/-- FormatCreate (format.c lines 44-93): allocate the descriptor's storage
from the arena (returning the allocation failure unchanged if it fails),
populate the fields (`RingInit` leaves the ring node self-linked), resolve
the class callback — a null `class` requires variety A (`AVER`) and installs
`FormatDefaultClass` — then finish via `formatFinish`. -/
def FormatCreate (arena : ArenaStruct) (alignment : Nat)
    (variety : FormatVariety) (scan skip move isMoved copy pad : Option Nat)
    (cls : Option FormatClassMethod) : CResult :=
  match ArenaAlloc arena FormatStructSize with
  | (Res.ok, p, arena1) =>
    match cls with
    | some c =>
        formatFinish arena1 p alignment variety scan skip move isMoved copy pad (some c)
    | none =>
        if variety == FormatVariety.A then
          formatFinish arena1 p alignment variety scan skip move isMoved copy pad
            (some FormatDefaultClass)
        else
          CResult.defect
  | (r, _, arena1) => CResult.fail r arena1

/-- FormatDestroy (format.c lines 96-107): assert the descriptor is valid
(`AVERT`, modelled as returning `none` when the assertion fires), remove its
node from the arena's format ring, overwrite the signature with
`SigInvalid`, finish the ring node, and return the storage to the arena.
The destroyed struct's remaining field contents are returned as the
contents the freed memory still holds. -/
def FormatDestroy (arena : ArenaStruct) (format : FormatStruct) :
    Option (ArenaStruct × FormatStruct) :=
  if FormatCheck arena format then
    let arena1 := { arena with formatRing := arena.formatRing.erase format.addr }
    let format1 := { format with arenaRing := RingNodeState.single }
    let format2 := { format1 with sig := SigInvalid }
    let format3 := { format2 with arenaRing := RingNodeState.finished }
    some (ArenaFree arena1 format.addr FormatStructSize, format3)
  else
    none

/-- FormatArena (format.c lines 110-115): the thread-safe accessor; it reads
the descriptor's owning-arena field and nothing else — notably, no
structural validation. -/
def FormatArena (format : FormatStruct) : Nat :=
  format.arena

/-- One item handed to the diagnostic writer: a literal directive string, a
pointer (`WriteFP`), an unsigned counter (`WriteFU`), a word (`WriteFW`), or
a callback code address (`WriteFF`). -/
inductive WriteItem where
  | str (s : String)
  | ptr (p : Nat)
  | uint (u : Nat)
  | word (w : Nat)
  | fn (f : Option Nat)
  deriving DecidableEq, Repr

/-- Whether a rendered item is a callback code address. -/
def WriteItem.isFn (item : WriteItem) : Bool :=
  match item with
  | WriteItem.fn _ => true
  | _ => false

/-- The caller-supplied text sink, modelled from the spec: a write-success
oracle `ok` and the sequence of items written so far. -/
structure SinkStream where
  ok : Bool
  out : List WriteItem
  deriving DecidableEq, Repr

/-- Modelled from the spec: the text-sink write operation (`WriteF`), which
accepts formatted diagnostic fields and returns success or failure; on
failure nothing is appended. -/
def WriteF (stream : SinkStream) (items : List WriteItem) : Res × SinkStream :=
  if stream.ok then
    (Res.ok, { stream with out := stream.out ++ items })
  else
    (Res.io, stream)

/-- The exact sequence of fields FormatDescribe hands to the writer
(format.c lines 122-134): the descriptor and its serial, the arena and the
arena's own serial, the alignment, and the scan, skip, move, isMoved, copy
and pad callback addresses; `arena` is the struct at `format->arena`. -/
def formatDescribeItems (arena : ArenaStruct) (format : FormatStruct) : List WriteItem :=
  [ WriteItem.str "Format $P ($U) \x7b\n", WriteItem.ptr format.addr,
    WriteItem.uint format.serial,
    WriteItem.str "  arena $P ($U)\n", WriteItem.ptr format.arena,
    WriteItem.uint arena.serial,
    WriteItem.str "  alignment $W\n", WriteItem.word format.alignment,
    WriteItem.str "  scan $F\n", WriteItem.fn format.scan,
    WriteItem.str "  skip $F\n", WriteItem.fn format.skip,
    WriteItem.str "  move $F\n", WriteItem.fn format.move,
    WriteItem.str "  isMoved $F\n", WriteItem.fn format.isMoved,
    WriteItem.str "  copy $F\n", WriteItem.fn format.copy,
    WriteItem.str "  pad $F\n", WriteItem.fn format.pad,
    WriteItem.str "\x7d Format $P ($U)\n", WriteItem.ptr format.addr,
    WriteItem.uint format.serial ]

/-- FormatDescribe (format.c lines 118-138): write the descriptor's fields
to the sink with one `WriteF` call; if the write fails, return that result,
otherwise `Res.ok`. -/
def FormatDescribe (arena : ArenaStruct) (format : FormatStruct)
    (stream : SinkStream) : Res × SinkStream :=
  match WriteF stream (formatDescribeItems arena format) with
  | (Res.ok, stream1) => (Res.ok, stream1)
  | (r, stream1) => (r, stream1)

/-- A client-visible operation on one arena: construct a descriptor with the
given arguments, or destroy the live descriptor at the given address. -/
inductive Op where
  | create (alignment : Nat) (variety : FormatVariety)
      (scan skip move isMoved copy pad : Option Nat)
      (cls : Option FormatClassMethod)
  | destroy (addr : Nat)

/-- An arena together with the structs of its live format descriptors: the
state threaded through an interleaved construct/destroy sequence. -/
structure World where
  arena : ArenaStruct
  formats : List FormatStruct

/-- Execute one operation: a failed construction leaves the arena as the
constructor reported it; an assertion-level defect (`none`) has no defined
continuation. -/
def stepOp (w : World) (op : Op) : Option World :=
  match op with
  | Op.create al v s sk m im c p cl =>
    match FormatCreate w.arena al v s sk m im c p cl with
    | CResult.ok a f => some ⟨a, w.formats ++ [f]⟩
    | CResult.fail _ a => some ⟨a, w.formats⟩
    | CResult.defect => none
  | Op.destroy addr =>
    match w.formats.find? (fun f => f.addr == addr) with
    | none => none
    | some f =>
      match FormatDestroy w.arena f with
      | none => none
      | some (a, _) => some ⟨a, w.formats.filter (fun g => g.addr != addr)⟩

/-- Execute a sequence of operations, stopping at the first defect. -/
def runOps (w : World) : List Op → Option World
  | [] => some w
  | op :: ops =>
    match stepOp w op with
    | none => none
    | some w1 => runOps w1 ops

/-- The serial numbers assigned by the successful constructions of an
operation sequence, in execution order. -/
def runAssigned (w : World) : List Op → List Nat
  | [] => []
  | op :: ops =>
    let here : List Nat :=
      match op with
      | Op.create al v s sk m im c p cl =>
        match FormatCreate w.arena al v s sk m im c p cl with
        | CResult.ok _ f => [f.serial]
        | _ => []
      | Op.destroy _ => []
    match stepOp w op with
    | none => here
    | some w1 => here ++ runAssigned w1 ops

/-- The serial-number invariant of one arena's world: every live
descriptor's serial is strictly below the arena's serial-issuing counter,
and no two live descriptors share a serial. -/
def SerialInv (w : World) : Prop :=
  (∀ f ∈ w.formats, f.serial < w.arena.formatSerial) ∧
    (w.formats.map (fun f => f.serial)).Pairwise (· ≠ ·)

/-! ## Helper lemmas -/

/-- The validator never reads the arena's format ring, so changing that
field does not change the verdict. -/
theorem formatCheck_ring_update (a : ArenaStruct) (r : List Nat) (f : FormatStruct) :
    FormatCheck { a with formatRing := r } f = FormatCheck a f :=
  rfl

/-- Characterisation of a successful `formatFinish`: the new descriptor is
stamped with the pre-increment counter, the counter advances by one, the
descriptor already validates against the updated arena, and the only other
arena change is the appended ring node. -/
theorem formatFinish_ok {arena1 : ArenaStruct} {p alignment : Nat}
    {variety : FormatVariety} {scan skip move isMoved copy pad : Option Nat}
    {cls : Option FormatClassMethod} {arena2 : ArenaStruct} {format : FormatStruct}
    (h : formatFinish arena1 p alignment variety scan skip move isMoved copy pad cls =
      CResult.ok arena2 format) :
    format.serial = arena1.formatSerial ∧
    arena2.formatSerial = arena1.formatSerial + 1 ∧
    FormatCheck arena2 format = true ∧
    arena2.formatRing = arena1.formatRing ++ [format.addr] ∧
    arena2.addr = arena1.addr ∧ arena2.sig = arena1.sig ∧
    arena2.serial = arena1.serial ∧ arena2.allocOk = arena1.allocOk ∧
    arena2.nextAddr = arena1.nextAddr ∧ arena2.blocks = arena1.blocks ∧
    format.arena = arena1.addr ∧ format.addr = p ∧ format.«class» = cls := by
  simp only [formatFinish] at h
  split at h
  · cases h
    rename_i hchk
    refine ⟨rfl, rfl, ?_, rfl, rfl, rfl, rfl, rfl, rfl, rfl, rfl, rfl, rfl⟩
    exact hchk
  · cases h

/-- `formatFinish` never produces a recoverable failure: it either succeeds
or trips the `AVERT` assertion. -/
theorem formatFinish_ne_fail {arena1 : ArenaStruct} {p alignment : Nat}
    {variety : FormatVariety} {scan skip move isMoved copy pad : Option Nat}
    {cls : Option FormatClassMethod} {r : Res} {a : ArenaStruct}
    (h : formatFinish arena1 p alignment variety scan skip move isMoved copy pad cls =
      CResult.fail r a) : False := by
  simp only [formatFinish] at h
  split at h <;> cases h

/-- Characterisation of a successful `FormatCreate`: allocation succeeded,
the serial stamped on the new descriptor is the arena's pre-call counter,
the counter advances by exactly one, the descriptor validates against the
returned arena, and the descriptor's address is appended to the ring. -/
theorem formatCreate_ok_spec {arena : ArenaStruct} {alignment : Nat}
    {variety : FormatVariety} {scan skip move isMoved copy pad : Option Nat}
    {cls : Option FormatClassMethod} {arena' : ArenaStruct} {format : FormatStruct}
    (h : FormatCreate arena alignment variety scan skip move isMoved copy pad cls =
      CResult.ok arena' format) :
    format.serial = arena.formatSerial ∧
    arena'.formatSerial = arena.formatSerial + 1 ∧
    FormatCheck arena' format = true ∧
    format.arena = arena.addr ∧
    arena'.addr = arena.addr ∧ arena'.sig = arena.sig ∧
    arena'.serial = arena.serial ∧
    arena'.formatRing = arena.formatRing ++ [format.addr] := by
  unfold FormatCreate ArenaAlloc at h
  by_cases hA : arena.allocOk
  · simp only [hA, if_true] at h
    have step :
        ∀ (cls' : Option FormatClassMethod),
          formatFinish
              { arena with allocOk := true,
                           nextAddr := arena.nextAddr + FormatStructSize,
                           blocks := arena.blocks ++ [arena.nextAddr] }
              arena.nextAddr alignment variety scan skip move isMoved copy pad cls' =
            CResult.ok arena' format →
          format.serial = arena.formatSerial ∧
          arena'.formatSerial = arena.formatSerial + 1 ∧
          FormatCheck arena' format = true ∧
          format.arena = arena.addr ∧
          arena'.addr = arena.addr ∧ arena'.sig = arena.sig ∧
          arena'.serial = arena.serial ∧
          arena'.formatRing = arena.formatRing ++ [format.addr] := by
      intro cls' hfin
      obtain ⟨h1, h2, h3, h4, h5, h6, h7, _, _, _, h11, _, _⟩ := formatFinish_ok hfin
      exact ⟨h1, h2, h3, h11, h5, h6, h7, h4⟩
    match cls, h with
    | some c, h => exact step (some c) h
    | none, h =>
      by_cases hv : variety == FormatVariety.A
      · simp only [hv, if_true] at h
        exact step (some FormatDefaultClass) h
      · simp only [hv, if_false] at h
        cases h
  · simp only [hA, if_false] at h
    cases h

/-- Characterisation of a failing `FormatCreate`: a recoverable failure can
only come from the allocation primitive, in which case the arena is handed
back exactly as it was. -/
theorem formatCreate_fail_spec {arena : ArenaStruct} {alignment : Nat}
    {variety : FormatVariety} {scan skip move isMoved copy pad : Option Nat}
    {cls : Option FormatClassMethod} {r : Res} {arena' : ArenaStruct}
    (h : FormatCreate arena alignment variety scan skip move isMoved copy pad cls =
      CResult.fail r arena') :
    arena' = arena ∧ r = Res.memory ∧ arena.allocOk = false := by
  unfold FormatCreate ArenaAlloc at h
  by_cases hA : arena.allocOk
  · simp only [hA, if_true] at h
    cases cls with
    | some c => exact absurd h formatFinish_ne_fail
    | none =>
      by_cases hv : variety == FormatVariety.A
      · simp only [hv, if_true] at h
        exact absurd h formatFinish_ne_fail
      · simp only [hv, if_false] at h
        cases h
  · have hA' : arena.allocOk = false := by simpa using hA
    simp only [hA', if_false] at h
    injection h with h1 h2
    exact ⟨h2.symm, h1.symm, hA'⟩

/-- Characterisation of a completed `FormatDestroy`: the precondition
(`AVERT`) held, the returned arena is the input arena with the descriptor's
node removed from the format ring and its block returned, and the freed
memory holds the descriptor with an invalidated signature and a finished
ring node. -/
theorem formatDestroy_some_spec {arena : ArenaStruct} {format : FormatStruct}
    {arena' : ArenaStruct} {format' : FormatStruct}
    (h : FormatDestroy arena format = some (arena', format')) :
    FormatCheck arena format = true ∧
    arena' = { arena with formatRing := arena.formatRing.erase format.addr,
                          blocks := arena.blocks.erase format.addr } ∧
    format' = { format with sig := SigInvalid,
                            arenaRing := RingNodeState.finished } := by
  simp only [FormatDestroy, ArenaFree] at h
  split at h
  · rename_i hchk
    simp only [Option.some.injEq, Prod.mk.injEq] at h
    exact ⟨hchk, h.1.symm, h.2.symm⟩
  · cases h

/-! ## Concrete data for witnesses -/

/-- A live arena with serial counter 5 and no formats yet. -/
def wArena : ArenaStruct :=
  { addr := 1, sig := ArenaSig, serial := 0, formatSerial := 5,
    formatRing := [], allocOk := true, nextAddr := 100, blocks := [] }

/-- The arena `wArena` as a successful construction leaves it. -/
def wArenaOut : ArenaStruct :=
  { addr := 1, sig := ArenaSig, serial := 0, formatSerial := 6,
    formatRing := [100], allocOk := true, nextAddr := 164, blocks := [100] }

/-- The descriptor built by constructing in `wArena` with alignment 8,
variety A, callback addresses 11-16 and a null class callback. -/
def wFormatOut : FormatStruct :=
  { addr := 100, sig := FormatSig, arena := 1,
    arenaRing := RingNodeState.single, alignment := 8,
    variety := FormatVariety.A, scan := some 11, skip := some 12,
    move := some 13, isMoved := some 14, copy := some 15, pad := some 16,
    «class» := some FormatDefaultClass, serial := 5 }

/-- The arena `wArenaOut` after the descriptor `wFormatOut` is destroyed. -/
def wArenaFinal : ArenaStruct :=
  { addr := 1, sig := ArenaSig, serial := 0, formatSerial := 6,
    formatRing := [], allocOk := true, nextAddr := 164, blocks := [] }

/-- The freed storage contents of `wFormatOut` after destruction. -/
def wFormatFinal : FormatStruct :=
  { addr := 100, sig := SigInvalid, arena := 1,
    arenaRing := RingNodeState.finished, alignment := 8,
    variety := FormatVariety.A, scan := some 11, skip := some 12,
    move := some 13, isMoved := some 14, copy := some 15, pad := some 16,
    «class» := some FormatDefaultClass, serial := 5 }

/-- `wArena` with the allocation oracle exhausted. -/
def wArenaNoMem : ArenaStruct :=
  { addr := 1, sig := ArenaSig, serial := 0, formatSerial := 5,
    formatRing := [], allocOk := false, nextAddr := 100, blocks := [] }

/-! ## Claims -/

/-- C1: for every successful call to the constructor, the returned
descriptor passes structural validation immediately, its serial number
equals the arena's serial-issuing counter value as it was before the call,
and the arena's counter after the call equals that serial number plus one
(the counter is incremented exactly once). -/
theorem formatCreate_valid_serial {arena : ArenaStruct} {alignment : Nat}
    {variety : FormatVariety} {scan skip move isMoved copy pad : Option Nat}
    {cls : Option FormatClassMethod} {arena' : ArenaStruct} {format : FormatStruct}
    (h : FormatCreate arena alignment variety scan skip move isMoved copy pad cls =
      CResult.ok arena' format) :
    FormatCheck arena' format = true ∧
    format.serial = arena.formatSerial ∧
    arena'.formatSerial = format.serial + 1 := by
  obtain ⟨h1, h2, h3, -, -, -, -, -⟩ := formatCreate_ok_spec h
  exact ⟨h3, h1, by rw [h1, h2]⟩

/-- Witness for C1: constructing in `wArena` succeeds and exhibits the
serial bookkeeping at counter value 5. -/
theorem formatCreate_valid_serial_witness :
    FormatCheck wArenaOut wFormatOut = true ∧
    wFormatOut.serial = wArena.formatSerial ∧
    wArenaOut.formatSerial = wFormatOut.serial + 1 :=
  @formatCreate_valid_serial wArena 8 FormatVariety.A (some 11) (some 12)
    (some 13) (some 14) (some 15) (some 16) none wArenaOut wFormatOut rfl

/-- C2: if the arena's allocation primitive fails, the constructor returns
that failure result with the arena exactly as it was — the format ring, the
serial-issuing counter and the block accounting are all unchanged, and no
descriptor is registered. -/
theorem formatCreate_alloc_fail (arena : ArenaStruct) (alignment : Nat)
    (variety : FormatVariety) (scan skip move isMoved copy pad : Option Nat)
    (cls : Option FormatClassMethod) (hA : arena.allocOk = false) :
    FormatCreate arena alignment variety scan skip move isMoved copy pad cls =
      CResult.fail Res.memory arena := by
  unfold FormatCreate ArenaAlloc
  simp only [hA]
  rfl

/-- Witness for C2: construction in the exhausted arena `wArenaNoMem`
reports `Res.memory` and hands the arena back untouched. -/
theorem formatCreate_alloc_fail_witness :
    FormatCreate wArenaNoMem 8 FormatVariety.A (some 11) (some 12) (some 13)
      (some 14) (some 15) (some 16) none = CResult.fail Res.memory wArenaNoMem :=
  formatCreate_alloc_fail wArenaNoMem 8 FormatVariety.A (some 11) (some 12)
    (some 13) (some 14) (some 15) (some 16) none rfl

/-- C3: constructing with a null class callback and variety A (default
class extraction) succeeds — given a live arena with storage available and
otherwise valid inputs — and installs `FormatDefaultClass`, which applied
to a non-null object returns the pointer-sized value stored at offset zero
of that object. -/
theorem formatCreate_default_class (arena : ArenaStruct) (alignment : Nat)
    (scan skip move isMoved copy pad : Option Nat)
    (hA : arena.allocOk = true) (hSig : arena.sig = ArenaSig)
    (hAl : AlignCheck alignment = true)
    (h1 : scan.isSome = true) (h2 : skip.isSome = true) (h3 : move.isSome = true)
    (h4 : isMoved.isSome = true) (h5 : copy.isSome = true) (h6 : pad.isSome = true) :
    (∃ arena' format,
      FormatCreate arena alignment FormatVariety.A scan skip move isMoved copy pad
        none = CResult.ok arena' format ∧
      format.«class» = some FormatDefaultClass) ∧
    ∀ mem object, object ≠ 0 → FormatDefaultClass mem object = some (mem object) := by
  constructor
  · unfold FormatCreate ArenaAlloc
    simp only [hA, if_true]
    have hred : (FormatVariety.A == FormatVariety.A) = true := rfl
    simp only [hred, if_true]
    unfold formatFinish
    have hchk : FormatCheck
        { addr := arena.addr, sig := arena.sig, serial := arena.serial,
          formatSerial := arena.formatSerial + 1, formatRing := arena.formatRing,
          allocOk := true, nextAddr := arena.nextAddr + FormatStructSize,
          blocks := arena.blocks ++ [arena.nextAddr] }
        { addr := arena.nextAddr, sig := FormatSig, arena := arena.addr,
          arenaRing := RingNodeState.single, alignment := alignment,
          variety := FormatVariety.A, scan := scan, skip := skip, move := move,
          isMoved := isMoved, copy := copy, pad := pad,
          «class» := some FormatDefaultClass, serial := arena.formatSerial } = true := by
      unfold FormatCheck ArenaCheckU RingCheck FUNCHECK
      simp [hSig, hAl, h1, h2, h3, h4, h5, h6, Nat.lt_succ_self]
    simp only [hchk, if_true]
    exact ⟨_, _, rfl, rfl⟩
  · intro mem object hobj
    unfold FormatDefaultClass
    simp [hobj]

/-- Witness for C3: the concrete construction in `wArena` with a null class
callback yields a descriptor carrying the default class method, and that
method reads offset zero (here: memory mapping every address `a` to
`a + 1000`, object 7 yields 1007). -/
theorem formatCreate_default_class_witness :
    ((∃ arena' format,
      FormatCreate wArena 8 FormatVariety.A (some 11) (some 12) (some 13)
        (some 14) (some 15) (some 16) none = CResult.ok arena' format ∧
      format.«class» = some FormatDefaultClass) ∧
    ∀ mem object, object ≠ 0 →
      FormatDefaultClass mem object = some (mem object)) ∧
    FormatDefaultClass (fun a => a + 1000) 7 = some 1007 := by
  constructor
  · exact formatCreate_default_class wArena 8 (some 11) (some 12) (some 13)
      (some 14) (some 15) (some 16) rfl rfl rfl rfl rfl rfl rfl rfl rfl
  · rfl

/-- C4: calling the constructor with a null class callback while selecting
variety B trips the `AVER(variety == FormatVarietyA)` assertion: whenever
the call reaches that statement (that is, whenever allocation succeeds),
construction ends as an assertion-level defect, not as a recoverable
failure result. -/
theorem formatCreate_null_class_defect (arena : ArenaStruct) (alignment : Nat)
    (scan skip move isMoved copy pad : Option Nat)
    (hA : arena.allocOk = true) :
    FormatCreate arena alignment FormatVariety.B scan skip move isMoved copy pad
      none = CResult.defect := by
  unfold FormatCreate ArenaAlloc
  simp only [hA, if_true]
  have hred : (FormatVariety.B == FormatVariety.A) = false := rfl
  simp only [hred]
  rfl

/-- Witness for C4: the concrete call with variety B and a null class
callback in `wArena` is rejected as a defect. -/
theorem formatCreate_null_class_defect_witness :
    FormatCreate wArena 8 FormatVariety.B (some 11) (some 12) (some 13)
      (some 14) (some 15) (some 16) none = CResult.defect :=
  formatCreate_null_class_defect wArena 8 (some 11) (some 12) (some 13)
    (some 14) (some 15) (some 16) rfl

/-! ## The validator's individual checks (named after the spec's list) -/

/-- Check 1: the validity signature matches the Format sentinel. -/
def checkSignature (format : FormatStruct) : Bool :=
  format.sig == FormatSig

/-- Check 2: the owning arena passes the arena's structural check. -/
def checkOwnerArena (arena : ArenaStruct) : Bool :=
  ArenaCheckU arena

/-- Check 3: the serial number is strictly below the arena's counter. -/
def checkSerialBelow (arena : ArenaStruct) (format : FormatStruct) : Bool :=
  decide (format.serial < arena.formatSerial)

/-- Check 4: the variety tag is one of the two recognised values. -/
def checkVarietyTag (format : FormatStruct) : Bool :=
  format.variety == FormatVariety.A || format.variety == FormatVariety.B

/-- Check 5: the ring-membership node is internally consistent. -/
def checkRingNode (format : FormatStruct) : Bool :=
  RingCheck format.arenaRing

/-- Check 6: the alignment passes the alignment-validity predicate. -/
def checkAlignmentValid (format : FormatStruct) : Bool :=
  AlignCheck format.alignment

/-- Check 7: each of the seven callbacks is a non-null plausibly-executable
address, in the source's order scan, skip, move, isMoved, copy, pad,
class. -/
def checkMethods (format : FormatStruct) : Bool :=
  FUNCHECK format.scan && (FUNCHECK format.skip && (FUNCHECK format.move &&
    (FUNCHECK format.isMoved && (FUNCHECK format.copy &&
      (FUNCHECK format.pad && FUNCHECK format.«class»)))))

/-- An `if !b then false else c` step — the shape of every `CHECK` macro in
the validator — is the short-circuiting conjunction `b && c`. -/
theorem if_bnot_eq_and (b c : Bool) : (if (!b) = true then false else c) = (b && c) := by
  cases b <;> rfl

/-- C5: the structural validator performs exactly the seven checks of the
spec's list, in that order, as a short-circuiting conjunction (each `&&`
ignores its right operand when the left fails), and it passes exactly when
all seven checks hold. -/
theorem formatCheck_ordered_checks (arena : ArenaStruct) (format : FormatStruct) :
    FormatCheck arena format =
      (checkSignature format && (checkOwnerArena arena &&
        (checkSerialBelow arena format && (checkVarietyTag format &&
          (checkRingNode format && (checkAlignmentValid format &&
            checkMethods format)))))) ∧
    (FormatCheck arena format = true ↔
      (checkSignature format = true ∧ checkOwnerArena arena = true ∧
       checkSerialBelow arena format = true ∧ checkVarietyTag format = true ∧
       checkRingNode format = true ∧ checkAlignmentValid format = true ∧
       checkMethods format = true)) := by
  have heq : FormatCheck arena format =
      (checkSignature format && (checkOwnerArena arena &&
        (checkSerialBelow arena format && (checkVarietyTag format &&
          (checkRingNode format && (checkAlignmentValid format &&
            checkMethods format)))))) := by
    unfold FormatCheck checkSignature checkOwnerArena checkSerialBelow
      checkVarietyTag checkRingNode checkAlignmentValid checkMethods
    rw [show (format.sig != FormatSig) = !(format.sig == FormatSig) from rfl]
    rw [if_bnot_eq_and, if_bnot_eq_and, if_bnot_eq_and, if_bnot_eq_and,
      if_bnot_eq_and, if_bnot_eq_and, if_bnot_eq_and, if_bnot_eq_and,
      if_bnot_eq_and, if_bnot_eq_and, if_bnot_eq_and, if_bnot_eq_and,
      if_bnot_eq_and]
    simp only [Bool.and_true]
  refine ⟨heq, ?_⟩
  rw [heq]
  simp only [Bool.and_eq_true]

/-- C6: the structural validator has no side effects — its source contains
no assignment, so its effectful embedding `FormatCheckOp` returns the arena
and descriptor unchanged — and it is idempotent: a second call on the state
the first call returns yields the very same verdict and the very same
state. -/
theorem formatCheck_idempotent (arena : ArenaStruct) (format : FormatStruct) :
    (FormatCheckOp arena format).2.1 = arena ∧
    (FormatCheckOp arena format).2.2 = format ∧
    FormatCheckOp (FormatCheckOp arena format).2.1 (FormatCheckOp arena format).2.2 =
      FormatCheckOp arena format :=
  ⟨rfl, rfl, rfl⟩

/-- C7: destroying a descriptor that passes structural validation
invalidates the handle — its signature no longer matches the sentinel and
validation now fails — removes its node from the arena's format ring, and
returns its storage to the arena. (The count hypotheses state that the
descriptor occurs at most once in the ring and in the block accounting, as
an intrusive ring node and an allocated block necessarily do.) -/
theorem formatDestroy_retires {arena : ArenaStruct} {format : FormatStruct}
    {arena' : ArenaStruct} {format' : FormatStruct}
    (h : FormatDestroy arena format = some (arena', format'))
    (hring : arena.formatRing.count format.addr ≤ 1)
    (hblk : arena.blocks.count format.addr ≤ 1) :
    FormatCheck arena' format' = false ∧
    format'.sig = SigInvalid ∧ format'.sig ≠ FormatSig ∧
    format.addr ∉ arena'.formatRing ∧
    format.addr ∉ arena'.blocks := by
  obtain ⟨-, ha, hf⟩ := formatDestroy_some_spec h
  have hsig : format'.sig = SigInvalid := by rw [hf]
  have hsigne : format'.sig ≠ FormatSig := by
    rw [hsig]; unfold SigInvalid FormatSig; decide
  refine ⟨?_, hsig, hsigne, ?_, ?_⟩
  · unfold FormatCheck
    have : (format'.sig != FormatSig) = true := by
      simp [bne_iff_ne, hsigne]
    rw [this]
    rfl
  · rw [ha]
    have : (arena.formatRing.erase format.addr).count format.addr = 0 := by
      rw [List.count_erase_self]
      omega
    exact List.count_eq_zero.mp this
  · rw [ha]
    have : (arena.blocks.erase format.addr).count format.addr = 0 := by
      rw [List.count_erase_self]
      omega
    exact List.count_eq_zero.mp this

/-- Witness for C7: destroying `wFormatOut` in `wArenaOut` yields
`wArenaFinal`/`wFormatFinal`, on which every conclusion is checked
concretely. -/
theorem formatDestroy_retires_witness :
    FormatCheck wArenaFinal wFormatFinal = false ∧
    wFormatFinal.sig = SigInvalid ∧ wFormatFinal.sig ≠ FormatSig ∧
    wFormatOut.addr ∉ wArenaFinal.formatRing ∧
    wFormatOut.addr ∉ wArenaFinal.blocks :=
  @formatDestroy_retires wArenaOut wFormatOut wArenaFinal wFormatFinal rfl
    (by decide) (by decide)

/-- C8: the get-arena accessor reads only the owning-arena field, which is
written at construction and never mutated afterwards: after a construct
followed by a destroy of the same descriptor, the accessor still returns
the arena supplied at construction (the field the freed storage holds is
unchanged), while the validator rejects the same handle. -/
theorem formatArena_survives_destroy {arena : ArenaStruct} {alignment : Nat}
    {variety : FormatVariety} {scan skip move isMoved copy pad : Option Nat}
    {cls : Option FormatClassMethod} {arena1 : ArenaStruct} {format : FormatStruct}
    {arena2 : ArenaStruct} {format2 : FormatStruct}
    (hc : FormatCreate arena alignment variety scan skip move isMoved copy pad cls =
      CResult.ok arena1 format)
    (hd : FormatDestroy arena1 format = some (arena2, format2)) :
    FormatArena format2 = arena.addr ∧
    FormatArena format2 = FormatArena format ∧
    FormatCheck arena2 format2 = false := by
  obtain ⟨-, -, -, hfa, -, -, -, -⟩ := formatCreate_ok_spec hc
  obtain ⟨-, -, hf2⟩ := formatDestroy_some_spec hd
  have harena : format2.arena = format.arena := by rw [hf2]
  have hsig2 : format2.sig = SigInvalid := by rw [hf2]
  refine ⟨?_, ?_, ?_⟩
  · unfold FormatArena
    rw [harena, hfa]
  · unfold FormatArena
    rw [harena]
  · unfold FormatCheck
    have hne : format2.sig ≠ FormatSig := by
      rw [hsig2]; unfold SigInvalid FormatSig; decide
    have : (format2.sig != FormatSig) = true := by simp [bne_iff_ne, hne]
    rw [this]
    rfl

/-- Witness for C8: the concrete construct-then-destroy run in `wArena`;
get-arena on the freed handle still answers 1 (the arena's address), while
validation answers false. -/
theorem formatArena_survives_destroy_witness :
    FormatArena wFormatFinal = wArena.addr ∧
    FormatArena wFormatFinal = FormatArena wFormatOut ∧
    FormatCheck wArenaFinal wFormatFinal = false :=
  @formatArena_survives_destroy wArena 8 FormatVariety.A (some 11) (some 12)
    (some 13) (some 14) (some 15) (some 16) none wArenaOut wFormatOut
    wArenaFinal wFormatFinal rfl rfl

/-! ## Serial numbers across interleaved construct/destroy sequences -/

/-- One step never decreases the arena's serial-issuing counter. -/
theorem stepOp_counter_mono {w w' : World} {op : Op} (h : stepOp w op = some w') :
    w.arena.formatSerial ≤ w'.arena.formatSerial := by
  cases op with
  | create al v s sk m im c p cl =>
    simp only [stepOp] at h
    split at h
    · rename_i a f hc
      injection h with h
      subst h
      obtain ⟨-, h2, -, -, -, -, -, -⟩ := formatCreate_ok_spec hc
      simp only []
      omega
    · rename_i r a hc
      injection h with h
      subst h
      obtain ⟨ha, -, -⟩ := formatCreate_fail_spec hc
      simp only [ha]
      exact le_refl _
    · cases h
  | destroy addr =>
    simp only [stepOp] at h
    split at h
    · cases h
    · rename_i f hfind
      split at h
      · cases h
      · rename_i a f2 hdes
        injection h with h
        subst h
        obtain ⟨-, ha, -⟩ := formatDestroy_some_spec hdes
        simp only [ha]
        exact le_refl _

/-- One step preserves the serial-number invariant: live serials stay
strictly below the counter and pairwise distinct. -/
theorem stepOp_serialInv {w w' : World} {op : Op} (h : stepOp w op = some w')
    (hI : SerialInv w) : SerialInv w' := by
  obtain ⟨hlt, hpw⟩ := hI
  cases op with
  | create al v s sk m im c p cl =>
    simp only [stepOp] at h
    split at h
    · rename_i a f hc
      injection h with h
      subst h
      obtain ⟨h1, h2, -, -, -, -, -, -⟩ := formatCreate_ok_spec hc
      unfold SerialInv
      constructor
      · intro g hg
        simp only [] at hg ⊢
        rcases List.mem_append.mp hg with hg | hg
        · have := hlt g hg
          omega
        · rw [List.mem_singleton] at hg
          subst hg
          omega
      · simp only [List.map_append]
        rw [List.pairwise_append]
        refine ⟨hpw, ?_, ?_⟩
        · simp
        · intro x hx y hy
          simp only [List.map_cons, List.map_nil, List.mem_singleton] at hy
          subst hy
          obtain ⟨g, hg, rfl⟩ := List.mem_map.mp hx
          have := hlt g hg
          omega
    · rename_i r a hc
      injection h with h
      subst h
      obtain ⟨ha, -, -⟩ := formatCreate_fail_spec hc
      subst ha
      exact ⟨hlt, hpw⟩
    · cases h
  | destroy addr =>
    simp only [stepOp] at h
    split at h
    · cases h
    · rename_i f hfind
      split at h
      · cases h
      · rename_i a f2 hdes
        injection h with h
        subst h
        obtain ⟨-, ha, -⟩ := formatDestroy_some_spec hdes
        unfold SerialInv
        constructor
        · intro g hg
          simp only [] at hg ⊢
          have hg' : g ∈ w.formats := List.mem_of_mem_filter hg
          have := hlt g hg'
          simp only [ha]
          omega
        · simp only []
          exact hpw.sublist ((List.filter_sublist _).map _)

/-- Running a whole operation sequence preserves the serial-number
invariant, and the counter only ever grows. -/
theorem runOps_serialInv {ops : List Op} :
    ∀ {w w' : World}, runOps w ops = some w' → SerialInv w →
      SerialInv w' ∧ w.arena.formatSerial ≤ w'.arena.formatSerial := by
  induction ops with
  | nil =>
    intro w w' h hI
    unfold runOps at h
    injection h with h
    subst h
    exact ⟨hI, le_refl _⟩
  | cons op ops ih =>
    intro w w' h hI
    unfold runOps at h
    cases hs : stepOp w op with
    | none => rw [hs] at h; cases h
    | some w1 =>
      rw [hs] at h
      obtain ⟨hI', hm'⟩ := ih h (stepOp_serialInv hs hI)
      exact ⟨hI', le_trans (stepOp_counter_mono hs) hm'⟩

/-- Every serial number assigned along a run is at least the counter value
the run started from. -/
theorem runAssigned_ge {ops : List Op} :
    ∀ {w : World} (x : Nat), x ∈ runAssigned w ops → w.arena.formatSerial ≤ x := by
  induction ops with
  | nil =>
    intro w x hx
    unfold runAssigned at hx
    cases hx
  | cons op ops ih =>
    intro w x hx
    cases op with
    | create al v s sk m im c p cl =>
      cases hc : FormatCreate w.arena al v s sk m im c p cl with
      | ok a f =>
        simp only [runAssigned, stepOp, hc, List.singleton_append] at hx
        obtain ⟨h1, h2, -, -, -, -, -, -⟩ := formatCreate_ok_spec hc
        rcases List.mem_cons.mp hx with hx | hx
        · omega
        · have := ih x hx
          simp only [] at this
          omega
      | fail r a =>
        simp only [runAssigned, stepOp, hc, List.nil_append] at hx
        obtain ⟨ha, -, -⟩ := formatCreate_fail_spec hc
        have := ih x hx
        simp only [ha] at this
        exact this
      | defect =>
        simp only [runAssigned, stepOp, hc] at hx
        cases hx
    | destroy addr =>
      cases hs : stepOp w (Op.destroy addr) with
      | none =>
        simp only [runAssigned, hs] at hx
        cases hx
      | some w1 =>
        simp only [runAssigned, hs, List.nil_append] at hx
        exact le_trans (stepOp_counter_mono hs) (ih x hx)

/-- The serial numbers assigned along any run are strictly increasing. -/
theorem runAssigned_pairwise : ∀ (ops : List Op) (w : World),
    (runAssigned w ops).Pairwise (· < ·) := by
  intro ops
  induction ops with
  | nil =>
    intro w
    unfold runAssigned
    exact List.Pairwise.nil
  | cons op ops ih =>
    intro w
    cases op with
    | create al v s sk m im c p cl =>
      cases hc : FormatCreate w.arena al v s sk m im c p cl with
      | ok a f =>
        simp only [runAssigned, stepOp, hc, List.singleton_append]
        refine List.Pairwise.cons ?_ (ih _)
        intro x hx
        have hge := runAssigned_ge x hx
        obtain ⟨h1, h2, -, -, -, -, -, -⟩ := formatCreate_ok_spec hc
        simp only [] at hge
        omega
      | fail r a =>
        simp only [runAssigned, stepOp, hc, List.nil_append]
        exact ih _
      | defect =>
        simp only [runAssigned, stepOp, hc]
        exact List.Pairwise.nil
    | destroy addr =>
      cases hs : stepOp w (Op.destroy addr) with
      | none =>
        simp only [runAssigned, hs]
        exact List.Pairwise.nil
      | some w1 =>
        simp only [runAssigned, hs, List.nil_append]
        exact ih _

/-- C9: within one arena, the serial numbers assigned across any
interleaved sequence of construct and destroy operations are strictly
increasing (hence never repeat, and any two descriptors constructed in the
same arena have distinct serials); moreover the serial-number invariant —
every live descriptor's serial strictly below the arena's current counter,
all live serials distinct — is preserved by every run, and the counter
never decreases. -/
theorem formatSerials_increasing (w : World) (ops : List Op) :
    (runAssigned w ops).Pairwise (· < ·) ∧
    ∀ w', runOps w ops = some w' → SerialInv w →
      SerialInv w' ∧ w.arena.formatSerial ≤ w'.arena.formatSerial :=
  ⟨runAssigned_pairwise ops w, fun _ h hI => runOps_serialInv h hI⟩

/-- Initial world for the C9 witness: the arena `wArena`, no live formats. -/
def wWorld0 : World := { arena := wArena, formats := [] }

/-- Interleaved sequence for the C9 witness: two constructions, then a
destruction of the first descriptor (address 100). -/
def wOps : List Op :=
  [ Op.create 8 FormatVariety.A (some 11) (some 12) (some 13) (some 14)
      (some 15) (some 16) none,
    Op.create 8 FormatVariety.A (some 11) (some 12) (some 13) (some 14)
      (some 15) (some 16) none,
    Op.destroy 100 ]

/-- The second descriptor constructed by `wOps` (address 164, serial 6). -/
def wFormat2 : FormatStruct :=
  { addr := 164, sig := FormatSig, arena := 1,
    arenaRing := RingNodeState.single, alignment := 8,
    variety := FormatVariety.A, scan := some 11, skip := some 12,
    move := some 13, isMoved := some 14, copy := some 15, pad := some 16,
    «class» := some FormatDefaultClass, serial := 6 }

/-- The world `wOps` leaves behind: counter 7, only the second descriptor
live. -/
def wWorld1 : World :=
  { arena := { addr := 1, sig := ArenaSig, serial := 0, formatSerial := 7,
               formatRing := [164], allocOk := true, nextAddr := 228,
               blocks := [164] },
    formats := [wFormat2] }

/-- Witness for C9: running `wOps` from `wWorld0` assigns the strictly
increasing serials 5 and 6, and the final world satisfies the serial-number
invariant with the counter grown from 5 to 7. -/
theorem formatSerials_increasing_witness :
    (runAssigned wWorld0 wOps).Pairwise (· < ·) ∧
    (SerialInv wWorld1 ∧ wWorld0.arena.formatSerial ≤ wWorld1.arena.formatSerial) :=
  ⟨(formatSerials_increasing wWorld0 wOps).1,
   (formatSerials_increasing wWorld0 wOps).2 wWorld1 rfl
     ⟨fun f hf => absurd hf (List.not_mem_nil f), List.Pairwise.nil⟩⟩

/-! ## The describer -/

/-- Counterexample to C10 as stated: the claim says all seven callback
addresses (scan, skip, move, isMoved, copy, pad, class) are rendered, which
requires at least seven callback-address items in the output; on a concrete
descriptor written to a fresh working sink, the rendered output contains
exactly six callback-address items — format.c lines 127-132 render scan,
skip, move, isMoved, copy and pad, and no line renders the class
callback. -/
theorem formatDescribe_six_callbacks_only :
    (FormatDescribe wArenaOut wFormatOut { ok := true, out := [] }).2.out.countP
        WriteItem.isFn = 6 ∧
    ¬ 7 ≤ (FormatDescribe wArenaOut wFormatOut { ok := true, out := [] }).2.out.countP
        WriteItem.isFn := by
  constructor
  · rfl
  · decide

/-- C10 amended: the describe operation renders the descriptor's arena,
alignment, and six callback addresses — scan, skip, move, isMoved, copy and
pad; the class callback is not rendered — to the caller-supplied text sink.
It only appends to the sink (and mutates no descriptor or arena state: it
takes them by value and returns only the result and the sink), and it
returns failure exactly when the sink's write operation fails, the write
failure cascading as the operation's result. -/
theorem formatDescribe_renders (arena : ArenaStruct) (format : FormatStruct)
    (stream : SinkStream) :
    ((FormatDescribe arena format stream).1 = Res.ok ↔ stream.ok = true) ∧
    (FormatDescribe arena format stream).2.ok = stream.ok ∧
    (stream.ok = true →
      (FormatDescribe arena format stream).2.out =
        stream.out ++ formatDescribeItems arena format) ∧
    (stream.ok = false → FormatDescribe arena format stream = (Res.io, stream)) ∧
    (formatDescribeItems arena format).countP WriteItem.isFn = 6 ∧
    WriteItem.ptr format.arena ∈ formatDescribeItems arena format ∧
    WriteItem.word format.alignment ∈ formatDescribeItems arena format ∧
    WriteItem.fn format.scan ∈ formatDescribeItems arena format ∧
    WriteItem.fn format.skip ∈ formatDescribeItems arena format ∧
    WriteItem.fn format.move ∈ formatDescribeItems arena format ∧
    WriteItem.fn format.isMoved ∈ formatDescribeItems arena format ∧
    WriteItem.fn format.copy ∈ formatDescribeItems arena format ∧
    WriteItem.fn format.pad ∈ formatDescribeItems arena format := by
  have hmem : WriteItem.ptr format.arena ∈ formatDescribeItems arena format ∧
      WriteItem.word format.alignment ∈ formatDescribeItems arena format ∧
      WriteItem.fn format.scan ∈ formatDescribeItems arena format ∧
      WriteItem.fn format.skip ∈ formatDescribeItems arena format ∧
      WriteItem.fn format.move ∈ formatDescribeItems arena format ∧
      WriteItem.fn format.isMoved ∈ formatDescribeItems arena format ∧
      WriteItem.fn format.copy ∈ formatDescribeItems arena format ∧
      WriteItem.fn format.pad ∈ formatDescribeItems arena format := by
    unfold formatDescribeItems
    refine ⟨?_, ?_, ?_, ?_, ?_, ?_, ?_, ?_⟩ <;> simp
  cases hs : stream.ok with
  | true =>
    refine ⟨?_, ?_, ?_, ?_, rfl, hmem.1, hmem.2.1, hmem.2.2.1, hmem.2.2.2.1,
      hmem.2.2.2.2.1, hmem.2.2.2.2.2.1, hmem.2.2.2.2.2.2.1, hmem.2.2.2.2.2.2.2⟩
    · simp [FormatDescribe, WriteF, hs]
    · simp [FormatDescribe, WriteF, hs]
    · intro _
      simp [FormatDescribe, WriteF, hs]
    · intro hfalse
      cases hfalse
  | false =>
    have hdes : FormatDescribe arena format stream = (Res.io, stream) := by
      unfold FormatDescribe WriteF
      rw [hs]
      rfl
    refine ⟨?_, ?_, ?_, fun _ => hdes, rfl, hmem.1, hmem.2.1, hmem.2.2.1,
      hmem.2.2.2.1, hmem.2.2.2.2.1, hmem.2.2.2.2.2.1, hmem.2.2.2.2.2.2.1,
      hmem.2.2.2.2.2.2.2⟩
    · rw [hdes]
      simp [hs]
    · rw [hdes, hs]
    · intro htrue
      cases htrue

/-- Witness for C10 (amended): the amended description of the describer,
checked on the concrete descriptor `wFormatOut` and a fresh working sink. -/
theorem formatDescribe_renders_witness :
    ((FormatDescribe wArenaOut wFormatOut { ok := true, out := [] }).1 = Res.ok ↔
      SinkStream.ok { ok := true, out := [] } = true) ∧
    (FormatDescribe wArenaOut wFormatOut { ok := true, out := [] }).2.ok =
      SinkStream.ok { ok := true, out := [] } ∧
    (SinkStream.ok { ok := true, out := [] } = true →
      (FormatDescribe wArenaOut wFormatOut { ok := true, out := [] }).2.out =
        SinkStream.out { ok := true, out := [] } ++
          formatDescribeItems wArenaOut wFormatOut) ∧
    (SinkStream.ok { ok := true, out := [] } = false →
      FormatDescribe wArenaOut wFormatOut { ok := true, out := [] } =
        (Res.io, { ok := true, out := [] })) ∧
    (formatDescribeItems wArenaOut wFormatOut).countP WriteItem.isFn = 6 ∧
    WriteItem.ptr wFormatOut.arena ∈ formatDescribeItems wArenaOut wFormatOut ∧
    WriteItem.word wFormatOut.alignment ∈ formatDescribeItems wArenaOut wFormatOut ∧
    WriteItem.fn wFormatOut.scan ∈ formatDescribeItems wArenaOut wFormatOut ∧
    WriteItem.fn wFormatOut.skip ∈ formatDescribeItems wArenaOut wFormatOut ∧
    WriteItem.fn wFormatOut.move ∈ formatDescribeItems wArenaOut wFormatOut ∧
    WriteItem.fn wFormatOut.isMoved ∈ formatDescribeItems wArenaOut wFormatOut ∧
    WriteItem.fn wFormatOut.copy ∈ formatDescribeItems wArenaOut wFormatOut ∧
    WriteItem.fn wFormatOut.pad ∈ formatDescribeItems wArenaOut wFormatOut :=
  formatDescribe_renders wArenaOut wFormatOut { ok := true, out := [] }

end MPS
